import Mathlib

/-!
Shallow embedding of the Identity Registry and Attendance Matching Engine of
the AI-Based Attendance System (src/app.py, class AttendanceData and its page
callers), with theorems settling the frozen claims about it.

Modelling conventions:
* The Python dict `self.students` (insertion-ordered, unique keys) is an
  association list `List (String × StudentRec)`; dict assignment is
  `dictInsert`, which updates in place the first entry with the key when
  present and otherwise appends.
* Face embeddings are rational vectors.  numpy computes the Euclidean
  distance `norm(e - c)` (app.py:221 via face_recognition.face_distance);
  we carry the SQUARED distance `sqDist` and compare it against the SQUARED
  tolerance.  Since `sqrt` is monotone on nonnegative rationals, argmin and
  every threshold comparison are unchanged by this encoding.
* `face_recognition.compare_faces(known, enc, tolerance)` is, per that
  library, `list(face_distance(known, enc) <= tolerance)`: a non-strict
  comparison.  It is embedded as `compare_faces_sq`.
* `np.argmin` returns the index of the FIRST occurrence of the minimum; it
  is embedded as the linear scan `argminIdx`.
* Durable pickle writes (save_students / save_attendance) either succeed or
  raise; a Boolean `saveOk` selects the outcome, and a raise is an
  `Except.error` carrying the in-memory state at the moment of the raise.
-/

namespace AttendanceApp

/-- One enrollment record: the dict stored at `self.students[student_id]`
(app.py:198-202).  The Python key `class` is `className` here;
`encoding` is the `face_encoding` entry. -/
structure StudentRec where
  name : String
  className : String
  email : String
  encoding : List ℚ
  registration_date : String
deriving Repr, DecidableEq, Inhabited

/-- One ledger entry appended by mark_attendance (app.py:233-237). -/
structure AttendanceRecord where
  student_id : String
  name : String
  className : String
  date : String
  time : String
  status : String
deriving Repr, DecidableEq, Inhabited

/-- Outcome of the dedup-checked ledger append (spec name: RecordOutcome). -/
inductive RecordOutcome where
  | Recorded
  | AlreadyPresentToday
deriving Repr, DecidableEq

/-- The scan-then-append block of mark_attendance (app.py:227-237): scan the
ledger for an event with this identity key and date; if found return
AlreadyPresentToday with no write, otherwise append a new Present event. -/
def record_if_new (records : List AttendanceRecord)
    (sid name cls today time : String) : RecordOutcome × List AttendanceRecord :=
  if records.any (fun r => decide (r.student_id = sid ∧ r.date = today)) then
    (RecordOutcome.AlreadyPresentToday, records)
  else
    (RecordOutcome.Recorded,
      records ++ [{ student_id := sid, name := name, className := cls,
                    date := today, time := time, status := "Present" }])

/-- Number of ledger events for a given (identity_key, calendar_date) pair. -/
def pairCount (records : List AttendanceRecord) (sid d : String) : ℕ :=
  (records.filter (fun r => decide (r.student_id = sid ∧ r.date = d))).length

/-- Arguments of one dedup-checked append call. -/
structure MarkCall where
  sid : String
  name : String
  cls : String
  date : String
  time : String

/-- The ledger produced by a sequence of record_if_new calls starting empty. -/
def runLedger (calls : List MarkCall) : List AttendanceRecord :=
  calls.foldl (fun recs c => (record_if_new recs c.sid c.name c.cls c.date c.time).2) []

/-- Squared Euclidean distance between two equal-length embedding vectors:
the square of `np.linalg.norm(a - b)` used by face_recognition.face_distance
(called at app.py:221). -/
def sqDist (a b : List ℚ) : ℚ :=
  (List.zipWith (fun x y => (x - y) ^ 2) a b).sum

/-- `face_recognition.face_distance(known_encodings, candidate)`
(app.py:221), in squared form: one squared distance per enrolled encoding,
in iteration order. -/
def face_distances_sq (known : List (List ℚ)) (cand : List ℚ) : List ℚ :=
  known.map (fun e => sqDist e cand)

/-- `face_recognition.compare_faces(known_encodings, candidate, tolerance)`
(app.py:220).  Per the face_recognition library this is
`list(face_distance(known, cand) <= tolerance)` — non-strict — so in squared
form each entry is `sqDist <= tolerance^2`. -/
def compare_faces_sq (known : List (List ℚ)) (cand : List ℚ) (tolSq : ℚ) :
    List Bool :=
  (face_distances_sq known cand).map (fun d => decide (d ≤ tolSq))

/-- `np.argmin` (app.py:222): index of the first occurrence of the minimum
of the list (0 on the empty list, which the code never queries). -/
def argminIdx : List ℚ → ℕ
  | [] => 0
  | [_] => 0
  | d :: d₂ :: rest =>
    let j := argminIdx (d₂ :: rest)
    if (d₂ :: rest).getD j 0 < d then j + 1 else 0

/-- The per-candidate matching decision of mark_attendance (app.py:215-225),
as the Matcher contract of the spec: distances to every enrolled embedding,
best_match_index by argmin, and the key at that index if its match flag is
set; None when nothing is enrolled. -/
def matchCandidate (enrolled : List (String × List ℚ)) (cand : List ℚ)
    (tolSq : ℚ) : Option String :=
  let known := enrolled.map Prod.snd
  if known.isEmpty then none
  else
    let dists := face_distances_sq known cand
    let i := argminIdx dists
    if (compare_faces_sq known cand tolSq).getD i false then
      some ((enrolled.map Prod.fst).getD i "")
    else none

/-- The squared distances seen by the matcher for an enrolled list. -/
def matchDists (enrolled : List (String × List ℚ)) (cand : List ℚ) : List ℚ :=
  face_distances_sq (enrolled.map Prod.snd) cand

/-- The index the matcher selects (np.argmin over the distances). -/
def bestIdx (enrolled : List (String × List ℚ)) (cand : List ℚ) : ℕ :=
  argminIdx (matchDists enrolled cand)

/-- The squared distance at the selected index. -/
def minDistSq (enrolled : List (String × List ℚ)) (cand : List ℚ) : ℚ :=
  (matchDists enrolled cand).getD (bestIdx enrolled cand) 0

/-- The squared matching tolerance: the code fixes tolerance=0.6
(app.py:220), so its square is 9/25. -/
def tolerance_sq : ℚ := 9 / 25

/-- In-memory and durable state of one AttendanceData instance:
`students` and `attendance_records` are the in-memory fields
(app.py:139-140); `disk_students` and `disk_attendance` model the contents
of students.pkl and attendance.pkl. -/
structure SysState where
  students : List (String × StudentRec)
  attendance_records : List AttendanceRecord
  disk_students : List (String × StudentRec)
  disk_attendance : List AttendanceRecord
deriving Repr, DecidableEq

/-- Python dict assignment `self.students[student_id] = rec` (app.py:198):
if the key is present its entry is replaced in place (the dict keeps the
original position), otherwise the new pair is appended. -/
def dictInsert (m : List (String × StudentRec)) (k : String) (v : StudentRec) :
    List (String × StudentRec) :=
  if m.any (fun p => decide (p.1 = k)) then
    m.map (fun p => if p.1 = k then (k, v) else p)
  else m ++ [(k, v)]

/-- save_students (app.py:151-153): a durable pickle dump that either
succeeds, making the file equal to the in-memory store, or raises; the
raise carries the unchanged state. -/
def save_students_eff (s : SysState) (ok : Bool) : Except SysState SysState :=
  if ok then Except.ok { s with disk_students := s.students } else Except.error s

/-- save_attendance (app.py:164-166): durable dump of the ledger, same
success or raise shape as save_students_eff. -/
def save_attendance_eff (s : SysState) (ok : Bool) : Except SysState SysState :=
  if ok then Except.ok { s with disk_attendance := s.attendance_records }
  else Except.error s

/-- register_student (app.py:181-205).  The external face-encoding
extraction result is the `face_encoding` argument (None when
generate_face_encoding found no face).  On a found face the record is
stored in memory and then flushed; a failing flush raises out of the
function with the in-memory mutation still in place (there is no rollback
in the code).  Returns True on success and False when no face was found. -/
def register_student (s : SysState) (student_id name class_name email : String)
    (face_encoding : Option (List ℚ)) (regDate : String) (saveOk : Bool) :
    Except SysState (Bool × SysState) :=
  match face_encoding with
  | none => Except.ok (false, s)
  | some enc =>
    let rec0 : StudentRec :=
      { name := name, className := class_name, email := email,
        encoding := enc, registration_date := regDate }
    let s' := { s with students := dictInsert s.students student_id rec0 }
    match save_students_eff s' saveOk with
    | Except.ok s'' => Except.ok (true, s'')
    | Except.error sErr => Except.error sErr

/-- Outcome shown by the registration form handler (app.py:329-353). -/
inductive RegOutcome where
  | MissingFields
  | DuplicateKey
  | NoPhoto
  | Registered
  | NoFaceDetected
  | RegistrationFailed
deriving Repr, DecidableEq

/-- The submission branch of student_registration_page (app.py:329-353):
required-field check (empty strings are falsy, the class must not be the
placeholder), then the duplicate-key check `student_id in
data_manager.students` on the RAW entered string, then the photo check;
otherwise register_student is called with the STRIPPED student_id and any
exception it raises is caught and shown as a failure. -/
def registration_submit (s : SysState)
    (student_id name class_name email : String) (hasPhoto : Bool)
    (face_encoding : Option (List ℚ)) (regDate : String) (saveOk : Bool) :
    RegOutcome × SysState :=
  if student_id = "" ∨ name = "" ∨ class_name = "Select Class" then
    (RegOutcome.MissingFields, s)
  else if s.students.any (fun p => decide (p.1 = student_id)) then
    (RegOutcome.DuplicateKey, s)
  else if ¬ hasPhoto then
    (RegOutcome.NoPhoto, s)
  else
    match register_student s student_id.trim name.trim class_name email.trim
        face_encoding regDate saveOk with
    | Except.ok (true, s') => (RegOutcome.Registered, s')
    | Except.ok (false, s') => (RegOutcome.NoFaceDetected, s')
    | Except.error s' => (RegOutcome.RegistrationFailed, s')

/-- The body of the per-encoding loop of mark_attendance (app.py:215-238)
for a nonempty student store: compare_faces and face_distance over the
values of the store, best_match_index by argmin; on an accepted match the
key and record at that index (the dict keys and values iterate in the same
insertion order, and dict keys are unique, so the lookup by key at
app.py:225-226 is the entry at the index) feed the dedup-checked append,
and a newly recorded name is accumulated. -/
def markOne (students : List (String × StudentRec)) (today time : String)
    (acc : List AttendanceRecord × List String) (e : List ℚ) :
    List AttendanceRecord × List String :=
  let known := students.map (fun p => p.2.encoding)
  let dists := face_distances_sq known e
  let i := argminIdx dists
  if (compare_faces_sq known e tolerance_sq).getD i false then
    let sid := (students.map Prod.fst).getD i ""
    let sdata := (students.map Prod.snd).getD i default
    match record_if_new acc.1 sid sdata.name sdata.className today time with
    | (RecordOutcome.Recorded, recs) => (recs, acc.2 ++ [sdata.name])
    | (RecordOutcome.AlreadyPresentToday, recs) => (recs, acc.2)
  else acc

/-- mark_attendance (app.py:207-245) given the externally extracted face
encodings.  With an empty store the loop returns [] on its first iteration
(and with no encodings it never runs), so nothing changes.  Otherwise every
encoding is matched and dedup-appended; if anything was newly marked the
ledger is flushed and the name list is returned deduplicated
(`list(set(marked_students))` — the set order is unspecified, `List.dedup`
is one deterministic representative).  A failing flush is caught by the
surrounding try and the function returns [], with the appended records
still in memory. -/
def mark_attendance (s : SysState) (encodings : List (List ℚ))
    (today time : String) (saveOk : Bool) : List String × SysState :=
  if s.students.isEmpty then ([], s)
  else
    let step := encodings.foldl (markOne s.students today time)
      (s.attendance_records, [])
    let s' := { s with attendance_records := step.1 }
    if step.2.isEmpty then ([], s')
    else
      match save_attendance_eff s' saveOk with
      | Except.ok s'' => (step.2.dedup, s'')
      | Except.error sErr => ([], sErr)

/-- The stats snapshot returned by get_attendance_stats (app.py:247-257).
`absent_today` is `total_students - present_today` over the integers (a
Python int subtraction) and `attendance_rate` is the PERCENTAGE
`present / total * 100`, 0 when no one is enrolled. -/
structure Stats where
  total_students : ℕ
  present_today : ℕ
  absent_today : ℤ
  attendance_rate : ℚ
deriving Repr, DecidableEq

/-- The distinct identity keys having an event on the given date:
the set comprehension at app.py:249, as a deduplicated list. -/
def presentIdsOn (records : List AttendanceRecord) (d : String) : List String :=
  ((records.filter (fun r => decide (r.date = d))).map
    (fun r => r.student_id)).dedup

/-- get_attendance_stats (app.py:247-257). -/
def get_attendance_stats (students : List (String × StudentRec))
    (records : List AttendanceRecord) (today : String) : Stats :=
  let present := (presentIdsOn records today).length
  let total := students.length
  { total_students := total
    present_today := present
    absent_today := (total : ℤ) - (present : ℤ)
    attendance_rate := if total > 0 then (present : ℚ) / (total : ℚ) * 100 else 0 }

/-- One row of the report table built at app.py:430-436. -/
structure ReportRow where
  student_id : String
  name : String
  className : String
  status : String
deriving Repr, DecidableEq

/-- The report built by attendance_reports_page (app.py:426-436): one row
per enrolled student passing the class filter (`none` is "All Classes"),
in store iteration order, with status Present exactly when the student has
an event on the selected date. -/
def report_for (students : List (String × StudentRec))
    (records : List AttendanceRecord) (d : String)
    (classFilter : Option String) : List ReportRow :=
  (students.filter (fun p =>
      match classFilter with
      | none => true
      | some c => decide (p.2.className = c))).map
    (fun p =>
      { student_id := p.1, name := p.2.name, className := p.2.className,
        status := if (presentIdsOn records d).contains p.1 then "Present"
                  else "Absent" })

/-- What reading a pickle file can yield: no file, a good payload, a
pickle.UnpicklingError, an EOFError, or any other raise (for example a
PermissionError on an unreadable file, or another exception type out of a
corrupt pickle stream). -/
inductive FileReadResult (α : Type) where
  | missing
  | good (data : α)
  | corruptUnpickling
  | corruptEOF
  | otherRaise
deriving Repr, DecidableEq

/-- load_students (app.py:142-149): a missing file is an empty store; the
try around open+pickle.load catches exactly pickle.UnpicklingError and
EOFError and returns an empty store for them; anything else propagates. -/
def load_students (f : FileReadResult (List (String × StudentRec))) :
    Except Unit (List (String × StudentRec)) :=
  match f with
  | FileReadResult.missing => Except.ok []
  | FileReadResult.good d => Except.ok d
  | FileReadResult.corruptUnpickling => Except.ok []
  | FileReadResult.corruptEOF => Except.ok []
  | FileReadResult.otherRaise => Except.error ()

/-- load_attendance (app.py:155-162): same shape as load_students with an
empty event list as the fallback. -/
def load_attendance (f : FileReadResult (List AttendanceRecord)) :
    Except Unit (List AttendanceRecord) :=
  match f with
  | FileReadResult.missing => Except.ok []
  | FileReadResult.good d => Except.ok d
  | FileReadResult.corruptUnpickling => Except.ok []
  | FileReadResult.corruptEOF => Except.ok []
  | FileReadResult.otherRaise => Except.error ()

/-- The Clear All Attendance Records button handler (app.py:489-493):
empty the in-memory ledger, then save_attendance. -/
def clear_all_attendance (s : SysState) (saveOk : Bool) :
    Except SysState SysState :=
  save_attendance_eff { s with attendance_records := [] } saveOk

/-! ### Concrete fixtures used by witnesses and counterexamples -/

/-- Fixture: an enrolled student named Alice with embedding [0]. -/
def aliceRec : StudentRec :=
  { name := "Alice", className := "Class 9A", email := "",
    encoding := [0], registration_date := "d0" }

/-- Fixture: the record the registration form stores for Bob. -/
def bobRec : StudentRec :=
  { name := "Bob", className := "Class 9A", email := "",
    encoding := [7], registration_date := "d1" }

/-- Fixture: a state holding exactly Alice under key A, fully persisted. -/
def storeWithAlice : SysState :=
  { students := [("A", aliceRec)], attendance_records := [],
    disk_students := [("A", aliceRec)], disk_attendance := [] }

/-- Fixture: first of two distinct students with display name John. -/
def johnRec1 : StudentRec :=
  { name := "John", className := "C1", email := "",
    encoding := [0], registration_date := "d" }

/-- Fixture: second of two distinct students with display name John. -/
def johnRec2 : StudentRec :=
  { name := "John", className := "C2", email := "",
    encoding := [100], registration_date := "d" }

/-- Fixture: a state enrolling the two Johns, nothing marked yet. -/
def twoJohnsState : SysState :=
  { students := [("J1", johnRec1), ("J2", johnRec2)], attendance_records := [],
    disk_students := [("J1", johnRec1), ("J2", johnRec2)], disk_attendance := [] }

/-- Fixture: an attendance event for Alice on 2025-10-08. -/
def aliceEvent : AttendanceRecord :=
  { student_id := "A", name := "Alice", className := "Class 9A",
    date := "2025-10-08", time := "09:00", status := "Present" }

/-- Fixture: the empty state (fresh install). -/
def emptyState : SysState :=
  { students := [], attendance_records := [],
    disk_students := [], disk_attendance := [] }

/-! ### Lemmas about argminIdx (np.argmin) -/

theorem argminIdx_lt_length : ∀ (l : List ℚ), l ≠ [] → argminIdx l < l.length
  | [], h => absurd rfl h
  | [_], _ => by simp [argminIdx]
  | d :: d₂ :: rest, _ => by
    have ih := argminIdx_lt_length (d₂ :: rest) (List.cons_ne_nil _ _)
    simp only [argminIdx]
    split
    · exact Nat.succ_lt_succ ih
    · simp

theorem argminIdx_le :
    ∀ (l : List ℚ) (k : ℕ), k < l.length →
      l.getD (argminIdx l) 0 ≤ l.getD k 0
  | [], k, h => absurd h (by simp)
  | [d], k, h => by
    have hk : k = 0 := Nat.lt_one_iff.mp (by simpa using h)
    subst hk
    simp [argminIdx]
  | d :: d₂ :: rest, k, h => by
    have ih := fun k hk => argminIdx_le (d₂ :: rest) k hk
    simp only [argminIdx]
    split
    · rename_i hc
      match k with
      | 0 => simpa using le_of_lt hc
      | k' + 1 =>
        have hk' : k' < (d₂ :: rest).length := Nat.lt_of_succ_lt_succ h
        simpa using ih k' hk'
    · rename_i hc
      have hd : d ≤ (d₂ :: rest).getD (argminIdx (d₂ :: rest)) 0 := not_lt.mp hc
      match k with
      | 0 => simp
      | k' + 1 =>
        have hk' : k' < (d₂ :: rest).length := Nat.lt_of_succ_lt_succ h
        simpa using le_trans hd (ih k' hk')

theorem argminIdx_first :
    ∀ (l : List ℚ) (k : ℕ), k < argminIdx l →
      l.getD (argminIdx l) 0 < l.getD k 0
  | [], k, h => absurd h (by simp [argminIdx])
  | [_], k, h => absurd h (by simp [argminIdx])
  | d :: d₂ :: rest, k, h => by
    have ih := fun k hk => argminIdx_first (d₂ :: rest) k hk
    simp only [argminIdx] at h ⊢
    split
    · rename_i hc
      match k with
      | 0 => simpa using hc
      | k' + 1 =>
        rw [if_pos hc] at h
        simpa using ih k' (Nat.lt_of_succ_lt_succ h)
    · rename_i hc
      rw [if_neg hc] at h
      exact absurd h (Nat.not_lt_zero k)

/-! ### Lemmas about the matcher -/

theorem matchDists_length (enrolled : List (String × List ℚ)) (cand : List ℚ) :
    (matchDists enrolled cand).length = enrolled.length := by
  simp [matchDists, face_distances_sq]

theorem matchDists_ne_nil (enrolled : List (String × List ℚ)) (cand : List ℚ)
    (h : enrolled ≠ []) : matchDists enrolled cand ≠ [] := by
  intro hn
  have := matchDists_length enrolled cand
  rw [hn] at this
  exact h (List.length_eq_zero.mp this.symm)

theorem bestIdx_lt (enrolled : List (String × List ℚ)) (cand : List ℚ)
    (h : enrolled ≠ []) : bestIdx enrolled cand < enrolled.length := by
  have := argminIdx_lt_length (matchDists enrolled cand) (matchDists_ne_nil _ _ h)
  rwa [matchDists_length] at this

/-- On a nonempty enrolled list the matcher returns the key at the argmin
index exactly when the minimal (squared) distance is within the (squared)
tolerance, and None otherwise. -/
theorem matchCandidate_characterization (enrolled : List (String × List ℚ))
    (cand : List ℚ) (tolSq : ℚ) (h : enrolled ≠ []) :
    matchCandidate enrolled cand tolSq =
      if minDistSq enrolled cand ≤ tolSq then
        some ((enrolled.map Prod.fst).getD (bestIdx enrolled cand) "")
      else none := by
  have hne : (enrolled.map Prod.snd).isEmpty = false := by
    simp [List.isEmpty_iff, h]
  have hlen : argminIdx (face_distances_sq (enrolled.map Prod.snd) cand)
      < (face_distances_sq (enrolled.map Prod.snd) cand).length :=
    argminIdx_lt_length _ (matchDists_ne_nil enrolled cand h)
  have hflag : (compare_faces_sq (enrolled.map Prod.snd) cand tolSq).getD
      (argminIdx (face_distances_sq (enrolled.map Prod.snd) cand)) false
      = decide ((face_distances_sq (enrolled.map Prod.snd) cand).getD
          (argminIdx (face_distances_sq (enrolled.map Prod.snd) cand)) 0 ≤ tolSq) := by
    rw [compare_faces_sq, List.getD_eq_getElem?_getD, List.getElem?_map,
        List.getElem?_eq_getElem hlen]
    simp [List.getD_eq_getElem?_getD, List.getElem?_eq_getElem hlen]
  simp only [matchCandidate, hne, Bool.false_eq_true, if_false, hflag,
    decide_eq_true_eq]
  rfl

/-- C8: for every candidate and enrolled set, the index the matcher selects
attains the minimum distance, every strictly earlier index has strictly
greater distance (so among tied minima the first in iteration order is
selected), and any returned key is the key at that index. -/
theorem matcher_tiebreak_first (enrolled : List (String × List ℚ))
    (cand : List ℚ) (tolSq : ℚ) (h : enrolled ≠ []) :
    bestIdx enrolled cand < enrolled.length ∧
    (∀ k, k < enrolled.length →
      minDistSq enrolled cand ≤ (matchDists enrolled cand).getD k 0) ∧
    (∀ k, k < bestIdx enrolled cand →
      minDistSq enrolled cand < (matchDists enrolled cand).getD k 0) ∧
    (∀ key, matchCandidate enrolled cand tolSq = some key →
      key = (enrolled.map Prod.fst).getD (bestIdx enrolled cand) "") := by
  refine ⟨bestIdx_lt enrolled cand h, ?_, ?_, ?_⟩
  · intro k hk
    exact argminIdx_le (matchDists enrolled cand) k (by rwa [matchDists_length])
  · intro k hk
    exact argminIdx_first (matchDists enrolled cand) k hk
  · intro key hkey
    rw [matchCandidate_characterization enrolled cand tolSq h] at hkey
    by_cases hc : minDistSq enrolled cand ≤ tolSq
    · rw [if_pos hc] at hkey
      exact (Option.some_injective _ hkey).symm
    · rw [if_neg hc] at hkey
      exact absurd hkey.symm (Option.some_ne_none key)

/-- Witness for C8: a concrete two-way tie (both enrolled embeddings at
distance 0 from the candidate) selects the first entry. -/
theorem matcher_tiebreak_first_witness :
    ([("A", ([0] : List ℚ)), ("B", [0])] ≠ ([] : List (String × List ℚ))) ∧
    bestIdx [("A", [0]), ("B", [0])] [0] = 0 ∧
    matchCandidate [("A", [0]), ("B", [0])] [0] 1 = some "A" ∧
    "A" = (List.map Prod.fst [("A", [0]), ("B", [0])]).getD
        (bestIdx [("A", [0]), ("B", [0])] [0]) "" :=
  ⟨by decide, by with_unfolding_all rfl, by with_unfolding_all rfl,
   (matcher_tiebreak_first [("A", [0]), ("B", [0])] [0] 1 (by decide)).2.2.2 "A"
     (by with_unfolding_all rfl)⟩

/-- C2 counterexample: an enrolled embedding at (squared) distance exactly
equal to the (squared) tolerance is NOT strictly below the tolerance, yet
the matcher returns its key: compare_faces is non-strict, refuting the
claim as stated. -/
theorem matcher_strict_boundary_counterexample :
    matchCandidate [("S1", [3/5])] [0] ((3/5) ^ 2) = some "S1" ∧
    minDistSq [("S1", [3/5])] [0] = (3/5) ^ 2 ∧
    ¬ (minDistSq [("S1", [3/5])] [0] < (3/5) ^ 2) :=
  ⟨by with_unfolding_all rfl, by with_unfolding_all rfl,
   by with_unfolding_all decide⟩

/-- C2 (amended): the matcher computes the distance to every enrolled
embedding, selects the entry at minimum distance, and returns its key
exactly when the minimum distance is AT MOST (non-strictly below) the
tolerance, else None; concretely, with entries at distances 0.2 and 0.8
and tolerance 0.6 it returns the first key, and with tolerance 0.1 it
returns None. -/
theorem matcher_threshold_amended (enrolled : List (String × List ℚ))
    (cand : List ℚ) (tolSq : ℚ) (h : enrolled ≠ []) :
    (∀ k, k < enrolled.length →
      minDistSq enrolled cand ≤ (matchDists enrolled cand).getD k 0) ∧
    (minDistSq enrolled cand ≤ tolSq →
      matchCandidate enrolled cand tolSq =
        some ((enrolled.map Prod.fst).getD (bestIdx enrolled cand) "")) ∧
    (tolSq < minDistSq enrolled cand →
      matchCandidate enrolled cand tolSq = none) ∧
    matchCandidate [("e1", [1/5]), ("e2", [4/5])] [0] ((3/5) ^ 2) = some "e1" ∧
    matchCandidate [("e1", [1/5]), ("e2", [4/5])] [0] ((1/10) ^ 2) = none := by
  refine ⟨?_, ?_, ?_, by with_unfolding_all rfl, by with_unfolding_all rfl⟩
  · intro k hk
    exact argminIdx_le (matchDists enrolled cand) k (by rwa [matchDists_length])
  · intro hc
    rw [matchCandidate_characterization enrolled cand tolSq h, if_pos hc]
  · intro hc
    rw [matchCandidate_characterization enrolled cand tolSq h,
      if_neg (not_le.mpr hc)]

/-- Witness for C2 (amended): one enrolled entry at distance 0 with
tolerance 1 is matched. -/
theorem matcher_threshold_amended_witness :
    ([("A", ([0] : List ℚ))] ≠ ([] : List (String × List ℚ))) ∧
    minDistSq [("A", [0])] [0] ≤ 1 ∧
    matchCandidate [("A", [0])] [0] 1 = some "A" :=
  ⟨by decide, by with_unfolding_all decide,
   (matcher_threshold_amended [("A", [0])] [0] 1 (by decide)).2.1
     (by with_unfolding_all decide)⟩

/-! ### Lemmas about the attendance ledger -/

theorem pairCount_append (recs : List AttendanceRecord) (ev : AttendanceRecord)
    (sid d : String) :
    pairCount (recs ++ [ev]) sid d =
      pairCount recs sid d +
        (if ev.student_id = sid ∧ ev.date = d then 1 else 0) := by
  simp only [pairCount, List.filter_append, List.length_append]
  by_cases hev : ev.student_id = sid ∧ ev.date = d
  · simp [hev]
  · simp [hev]

theorem ledger_any_false_iff (recs : List AttendanceRecord) (sid d : String) :
    (recs.any (fun r => decide (r.student_id = sid ∧ r.date = d))) = false ↔
      pairCount recs sid d = 0 := by
  rw [pairCount, List.length_eq_zero]
  rw [← Bool.not_eq_true, List.any_eq_true]
  rw [List.filter_eq_nil_iff]
  simp

theorem record_if_new_already (recs : List AttendanceRecord)
    (sid name cls today time : String) (h : 0 < pairCount recs sid today) :
    record_if_new recs sid name cls today time =
      (RecordOutcome.AlreadyPresentToday, recs) := by
  rw [record_if_new, if_pos]
  rw [← Bool.not_eq_false, ledger_any_false_iff]
  omega

theorem record_if_new_fresh (recs : List AttendanceRecord)
    (sid name cls today time : String) (h : pairCount recs sid today = 0) :
    record_if_new recs sid name cls today time =
      (RecordOutcome.Recorded,
        recs ++ [{ student_id := sid, name := name, className := cls,
                   date := today, time := time, status := "Present" }]) := by
  rw [record_if_new, if_neg]
  simp only [Bool.not_eq_true]
  exact (ledger_any_false_iff recs sid today).mpr h

theorem record_if_new_pairCount_le (recs : List AttendanceRecord)
    (csid cname ccls cdate ctime sid d : String)
    (h : pairCount recs sid d ≤ 1) :
    pairCount (record_if_new recs csid cname ccls cdate ctime).2 sid d ≤ 1 := by
  by_cases hp : 0 < pairCount recs csid cdate
  · rw [record_if_new_already recs csid cname ccls cdate ctime hp]
    exact h
  · have hz : pairCount recs csid cdate = 0 := by omega
    rw [record_if_new_fresh recs csid cname ccls cdate ctime hz]
    simp only [Prod.snd]
    rw [pairCount_append]
    by_cases he : csid = sid ∧ cdate = d
    · have hzz : pairCount recs sid d = 0 := by
        rw [← he.1, ← he.2]; exact hz
      simp [he, hzz]
    · simp [he, h]

theorem runLedger_aux_le (sid d : String) :
    ∀ (calls : List MarkCall) (recs : List AttendanceRecord),
      pairCount recs sid d ≤ 1 →
      pairCount (calls.foldl
        (fun recs c => (record_if_new recs c.sid c.name c.cls c.date c.time).2)
        recs) sid d ≤ 1
  | [], _, h => h
  | c :: rest, recs, h => by
    rw [List.foldl_cons]
    exact runLedger_aux_le sid d rest _
      (record_if_new_pairCount_le recs c.sid c.name c.cls c.date c.time sid d h)

/-- C1: over every sequence of record_if_new calls, at most one ledger
event exists per (identity_key, calendar_date) pair; and from any ledger
without the pair, two calls with the same pair yield Recorded then
AlreadyPresentToday, the second call appends nothing, and exactly one
event for the pair exists afterwards. -/
theorem ledger_dedup_invariant :
    (∀ (calls : List MarkCall) (sid d : String),
      pairCount (runLedger calls) sid d ≤ 1) ∧
    (∀ (recs : List AttendanceRecord) (sid n₁ c₁ d t₁ n₂ c₂ t₂ : String),
      pairCount recs sid d = 0 →
      (record_if_new recs sid n₁ c₁ d t₁).1 = RecordOutcome.Recorded ∧
      (record_if_new (record_if_new recs sid n₁ c₁ d t₁).2 sid n₂ c₂ d t₂).1
        = RecordOutcome.AlreadyPresentToday ∧
      (record_if_new (record_if_new recs sid n₁ c₁ d t₁).2 sid n₂ c₂ d t₂).2
        = (record_if_new recs sid n₁ c₁ d t₁).2 ∧
      pairCount (record_if_new (record_if_new recs sid n₁ c₁ d t₁).2
        sid n₂ c₂ d t₂).2 sid d = 1) := by
  constructor
  · intro calls sid d
    exact runLedger_aux_le sid d calls [] (by simp [pairCount])
  · intro recs sid n₁ c₁ d t₁ n₂ c₂ t₂ h
    have h1 := record_if_new_fresh recs sid n₁ c₁ d t₁ h
    have hc1 : pairCount (record_if_new recs sid n₁ c₁ d t₁).2 sid d = 1 := by
      rw [h1]
      show pairCount (recs ++ [_]) sid d = 1
      rw [pairCount_append]
      simp [h]
    have h2 := record_if_new_already (record_if_new recs sid n₁ c₁ d t₁).2
      sid n₂ c₂ d t₂ (by omega)
    exact ⟨by rw [h1], by rw [h2], by rw [h2], by rw [h2]; exact hc1⟩

/-- Witness for C1: starting from the empty ledger, marking A on a date
twice yields Recorded then AlreadyPresentToday and exactly one event. -/
theorem ledger_dedup_invariant_witness :
    pairCount [] "A" "2025-10-08" = 0 ∧
    (record_if_new [] "A" "Alice" "C" "2025-10-08" "09:00").1
      = RecordOutcome.Recorded ∧
    (record_if_new (record_if_new [] "A" "Alice" "C" "2025-10-08" "09:00").2
        "A" "Alice" "C" "2025-10-08" "09:05").1
      = RecordOutcome.AlreadyPresentToday ∧
    pairCount (record_if_new
        (record_if_new [] "A" "Alice" "C" "2025-10-08" "09:00").2
        "A" "Alice" "C" "2025-10-08" "09:05").2 "A" "2025-10-08" = 1 :=
  have happ := ledger_dedup_invariant.2 [] "A" "Alice" "C" "2025-10-08" "09:00"
    "Alice" "C" "09:05" (by with_unfolding_all rfl)
  ⟨by with_unfolding_all rfl, happ.1, happ.2.1, happ.2.2.2⟩

/-! ### Lemmas about the aggregator -/

theorem presentIdsOn_nodup (records : List AttendanceRecord) (d : String) :
    (presentIdsOn records d).Nodup :=
  List.nodup_dedup _

theorem presentIdsOn_mem_iff (records : List AttendanceRecord) (d : String)
    (k : String) :
    k ∈ presentIdsOn records d ↔
      ∃ r, r ∈ records ∧ r.student_id = k ∧ r.date = d := by
  simp only [presentIdsOn, List.mem_dedup, List.mem_map, List.mem_filter,
    decide_eq_true_eq]
  constructor
  · rintro ⟨r, ⟨hr, hd⟩, hk⟩
    exact ⟨r, hr, hk, hd⟩
  · rintro ⟨r, hr, hk, hd⟩
    exact ⟨r, ⟨hr, hd⟩, hk⟩

/-- C4 counterexample: with one enrolled student who is present, the code
computes attendance_rate = 100 (a percentage), while present_count divided
by total_enrolled is 1; the claimed equation attendance_rate =
present_count / total_enrolled fails. -/
theorem stats_rate_percent_counterexample :
    (get_attendance_stats [("A", aliceRec)] [aliceEvent] "2025-10-08").attendance_rate
      = 100 ∧
    ((get_attendance_stats [("A", aliceRec)] [aliceEvent] "2025-10-08").present_today : ℚ)
      / ((get_attendance_stats [("A", aliceRec)] [aliceEvent]
          "2025-10-08").total_students : ℚ) = 1 ∧
    (100 : ℚ) ≠ 1 :=
  ⟨by with_unfolding_all rfl, by with_unfolding_all rfl, by norm_num⟩

/-- C4 (amended): for every store and ledger state, present_count +
absent_count = total_enrolled (over the integers), present_count is the
number of distinct identity keys with an event on the queried date, and
attendance_rate equals present_count / total_enrolled * 100 (a
percentage), defined as 0 when total_enrolled = 0 so that no division
fault can occur. -/
theorem stats_consistency_amended (students : List (String × StudentRec))
    (records : List AttendanceRecord) (today : String) :
    ((get_attendance_stats students records today).present_today : ℤ)
        + (get_attendance_stats students records today).absent_today
      = ((get_attendance_stats students records today).total_students : ℤ) ∧
    (get_attendance_stats students records today).present_today
      = (presentIdsOn records today).length ∧
    (presentIdsOn records today).Nodup ∧
    (∀ k, k ∈ presentIdsOn records today ↔
      ∃ r, r ∈ records ∧ r.student_id = k ∧ r.date = today) ∧
    ((get_attendance_stats students records today).total_students = 0 →
      (get_attendance_stats students records today).attendance_rate = 0) ∧
    ((get_attendance_stats students records today).total_students ≠ 0 →
      (get_attendance_stats students records today).attendance_rate
        = ((get_attendance_stats students records today).present_today : ℚ)
          / ((get_attendance_stats students records today).total_students : ℚ)
          * 100) := by
  refine ⟨by simp [get_attendance_stats], rfl, presentIdsOn_nodup records today,
    presentIdsOn_mem_iff records today, ?_, ?_⟩
  · intro h
    simp [get_attendance_stats] at h ⊢
    simp [h]
  · intro h
    have hpos : 0 < students.length :=
      Nat.pos_of_ne_zero (by simpa [get_attendance_stats] using h)
    simp [get_attendance_stats, hpos]

/-- Witness for C4 (amended): one enrolled student, nobody present. -/
theorem stats_consistency_amended_witness :
    ((get_attendance_stats [("A", aliceRec)] [] "2025-10-08").present_today : ℤ)
        + (get_attendance_stats [("A", aliceRec)] [] "2025-10-08").absent_today
      = ((get_attendance_stats [("A", aliceRec)] [] "2025-10-08").total_students : ℤ) ∧
    (get_attendance_stats [("A", aliceRec)] [] "2025-10-08").total_students ≠ 0 ∧
    (get_attendance_stats [("A", aliceRec)] [] "2025-10-08").attendance_rate
      = ((get_attendance_stats [("A", aliceRec)] [] "2025-10-08").present_today : ℚ)
        / ((get_attendance_stats [("A", aliceRec)] [] "2025-10-08").total_students : ℚ)
        * 100 :=
  ⟨(stats_consistency_amended [("A", aliceRec)] [] "2025-10-08").1,
   by with_unfolding_all decide,
   (stats_consistency_amended [("A", aliceRec)] [] "2025-10-08").2.2.2.2.2
     (by with_unfolding_all decide)⟩

theorem report_for_none_eq (students : List (String × StudentRec))
    (records : List AttendanceRecord) (d : String) :
    report_for students records d none =
      students.map (fun p =>
        { student_id := p.1, name := p.2.name, className := p.2.className,
          status := if (presentIdsOn records d).contains p.1 then "Present"
                    else "Absent" }) := by
  rw [report_for]
  congr 1
  exact List.filter_true students

/-- C5: for every store, ledger and date, the unfiltered report has exactly
total_enrolled rows, its keys are exactly the enrolled keys in store order
(each exactly once when the store keys are distinct, as they are for a
dict), and each status is Present exactly when an event for that identity
exists on that date and Absent otherwise. -/
theorem report_completeness (students : List (String × StudentRec))
    (records : List AttendanceRecord) (d : String)
    (hnd : (students.map Prod.fst).Nodup) :
    (report_for students records d none).length = students.length ∧
    ((report_for students records d none).map (fun r => r.student_id))
      = students.map Prod.fst ∧
    (∀ k, k ∈ students.map Prod.fst →
      ((report_for students records d none).map (fun r => r.student_id)).count k
        = 1) ∧
    (∀ row, row ∈ report_for students records d none →
      (row.status = "Present" ↔
        ∃ r, r ∈ records ∧ r.student_id = row.student_id ∧ r.date = d) ∧
      (row.status = "Absent" ↔
        ¬ ∃ r, r ∈ records ∧ r.student_id = row.student_id ∧ r.date = d)) := by
  have hmapid : ((report_for students records d none).map (fun r => r.student_id))
      = students.map Prod.fst := by
    rw [report_for_none_eq, List.map_map]
    rfl
  refine ⟨by rw [report_for_none_eq, List.length_map], hmapid, ?_, ?_⟩
  · intro k hk
    rw [hmapid]
    exact List.count_eq_one_of_mem hnd hk
  · intro row hrow
    rw [report_for_none_eq] at hrow
    obtain ⟨p, hp, hrw⟩ := List.mem_map.mp hrow
    subst hrw
    simp only
    by_cases hc : p.1 ∈ presentIdsOn records d
    · have hcb : (presentIdsOn records d).contains p.1 = true :=
        List.elem_eq_true_of_mem hc
      rw [hcb]
      simp only [if_true]
      constructor
      · constructor
        · intro _
          exact (presentIdsOn_mem_iff records d p.1).mp hc
        · intro _; trivial
      · constructor
        · intro hab
          exact absurd hab (by decide)
        · intro hnex
          exact absurd ((presentIdsOn_mem_iff records d p.1).mp hc) hnex
    · have hcb : (presentIdsOn records d).contains p.1 = false := by
        rw [← Bool.not_eq_true]
        intro hct
        exact hc (List.mem_of_elem_eq_true hct)
      rw [hcb]
      simp only [Bool.false_eq_true, if_false]
      constructor
      · constructor
        · intro hpr
          exact absurd hpr (by decide)
        · intro hex
          exact absurd ((presentIdsOn_mem_iff records d p.1).mpr hex) hc
      · constructor
        · intro _
          intro hex
          exact hc ((presentIdsOn_mem_iff records d p.1).mpr hex)
        · intro _; trivial

/-- Witness for C5: a one-student store with that student present. -/
theorem report_completeness_witness :
    (List.map Prod.fst [("A", aliceRec)]).Nodup ∧
    (report_for [("A", aliceRec)] [aliceEvent] "2025-10-08" none).length = 1 ∧
    ((report_for [("A", aliceRec)] [aliceEvent] "2025-10-08" none).map
        (fun r => r.student_id)).count "A" = 1 :=
  ⟨by decide,
   (report_completeness [("A", aliceRec)] [aliceEvent] "2025-10-08" (by decide)).1,
   (report_completeness [("A", aliceRec)] [aliceEvent] "2025-10-08"
     (by decide)).2.2.1 "A" (by decide)⟩

/-- C9: every attendance capture returns each display name at most once
(the name list is returned through a set), and in the concrete capture
where two distinct students who share the display name John are both newly
recorded, the returned list holds John once while two ledger events (for
J1 and J2) are appended. -/
theorem capture_names_deduplicated :
    (∀ (s : SysState) (encodings : List (List ℚ)) (today time : String)
        (ok : Bool) (nm : String),
      ((mark_attendance s encodings today time ok).1).count nm ≤ 1) ∧
    (mark_attendance twoJohnsState [[0], [100]] "2025-10-08" "09:00" true).1
      = ["John"] ∧
    ((mark_attendance twoJohnsState [[0], [100]] "2025-10-08" "09:00"
        true).2.attendance_records.map (fun r => r.student_id)) = ["J1", "J2"] ∧
    johnRec1.name = johnRec2.name := by
  refine ⟨?_, by with_unfolding_all rfl, by with_unfolding_all rfl, rfl⟩
  intro s encodings today time ok nm
  simp only [mark_attendance]
  split
  · simp
  · split
    · simp
    · split
      · rename_i s'' heq
        simp only [List.count]
        exact List.nodup_iff_count_le_one.mp (List.nodup_dedup _) nm
      · simp

/-- C10: clearing all attendance succeeds with a state whose in-memory and
persisted ledgers are empty while the identity store (in memory and on
disk, with all names, groups and embeddings) is exactly as before. -/
theorem clear_attendance_frame (s : SysState) :
    ∃ s₂, clear_all_attendance s true = Except.ok s₂ ∧
      s₂.students = s.students ∧ s₂.disk_students = s.disk_students ∧
      s₂.attendance_records = [] ∧ s₂.disk_attendance = [] :=
  ⟨{ s with attendance_records := [], disk_attendance := [] },
   rfl, rfl, rfl, rfl, rfl⟩

/-- C7 counterexample: an unreadable store file (a read raising anything
other than pickle.UnpicklingError or EOFError, e.g. a PermissionError) is
NOT loaded as an empty store — the exception propagates out of load. -/
theorem unreadable_load_counterexample :
    load_students FileReadResult.otherRaise = Except.error () ∧
    load_students FileReadResult.otherRaise ≠
      Except.ok ([] : List (String × StudentRec)) :=
  ⟨rfl, by simp [load_students]⟩

/-- C7 (amended): a missing store file, or one whose read raises
pickle.UnpicklingError or EOFError, loads as an empty store or ledger with
no fault; any other raise (e.g. an unreadable file) propagates. -/
theorem corrupt_load_amended :
    load_students FileReadResult.missing = Except.ok [] ∧
    load_students FileReadResult.corruptUnpickling = Except.ok [] ∧
    load_students FileReadResult.corruptEOF = Except.ok [] ∧
    load_attendance FileReadResult.missing = Except.ok [] ∧
    load_attendance FileReadResult.corruptUnpickling = Except.ok [] ∧
    load_attendance FileReadResult.corruptEOF = Except.ok [] ∧
    load_students FileReadResult.otherRaise = Except.error () ∧
    load_attendance FileReadResult.otherRaise = Except.error () :=
  ⟨rfl, rfl, rfl, rfl, rfl, rfl, rfl, rfl⟩

/-- C6 counterexample: the claimed rollback does not happen on either
failing durable write.  Registering into an empty store with the
students-file dump failing surfaces a failed operation, but the in-memory
store is NOT rolled back to its pre-operation (empty) value: the new
record stays in memory while the disk copy is unchanged.  Likewise, a
capture that newly marks Alice with the attendance-file dump failing
returns [] (the caught exception), but the appended event stays in the
in-memory ledger while the disk ledger is unchanged.  In both cases
memory diverges from what was persisted. -/
theorem write_failure_no_rollback_counterexample :
    (registration_submit emptyState "A" "Alice" "Class 9A" "" true (some [0])
        "d0" false).1 = RegOutcome.RegistrationFailed ∧
    (registration_submit emptyState "A" "Alice" "Class 9A" "" true (some [0])
        "d0" false).2.students ≠ emptyState.students ∧
    (registration_submit emptyState "A" "Alice" "Class 9A" "" true (some [0])
        "d0" false).2.disk_students = emptyState.disk_students ∧
    (mark_attendance storeWithAlice [[0]] "2025-10-08" "09:00" false).1 = [] ∧
    (mark_attendance storeWithAlice [[0]] "2025-10-08" "09:00"
        false).2.attendance_records ≠ storeWithAlice.attendance_records ∧
    (mark_attendance storeWithAlice [[0]] "2025-10-08" "09:00"
        false).2.disk_attendance = storeWithAlice.disk_attendance :=
  ⟨by with_unfolding_all rfl, by with_unfolding_all decide,
   by with_unfolding_all rfl, by with_unfolding_all rfl,
   by with_unfolding_all decide, by with_unfolding_all rfl⟩

/-- C6 (amended): when a durable write fails, the operation is surfaced to
the caller as a failed operation, but the in-memory state keeps the
mutation (no rollback) while the persisted state is unchanged.  First
part: a failing save_students during a registration that passed all form
checks surfaces RegistrationFailed with the inserted record still in the
in-memory store and the disk store untouched.  Second part: a failing
save_attendance during a capture that newly marked at least someone (the
fold produced a nonempty marked list) returns [] with the appended events
still in the in-memory ledger and the disk ledger untouched. -/
theorem write_failure_no_rollback_amended (s : SysState)
    (student_id name class_name email regDate : String) (enc : List ℚ)
    (h1 : ¬ (student_id = "" ∨ name = "" ∨ class_name = "Select Class"))
    (h2 : s.students.any (fun p => decide (p.1 = student_id)) = false) :
    (registration_submit s student_id name class_name email true (some enc)
        regDate false).1 = RegOutcome.RegistrationFailed ∧
    (registration_submit s student_id name class_name email true (some enc)
        regDate false).2.students
      = dictInsert s.students student_id.trim
          { name := name.trim, className := class_name, email := email.trim,
            encoding := enc, registration_date := regDate } ∧
    (registration_submit s student_id name class_name email true (some enc)
        regDate false).2.disk_students = s.disk_students ∧
    (registration_submit s student_id name class_name email true (some enc)
        regDate false).2.attendance_records = s.attendance_records ∧
    (registration_submit s student_id name class_name email true (some enc)
        regDate false).2.disk_attendance = s.disk_attendance ∧
    (∀ (s₂ : SysState) (encodings : List (List ℚ)) (today time : String),
      s₂.students.isEmpty = false →
      (encodings.foldl (markOne s₂.students today time)
        (s₂.attendance_records, [])).2.isEmpty = false →
      (mark_attendance s₂ encodings today time false).1 = [] ∧
      (mark_attendance s₂ encodings today time false).2.attendance_records
        = (encodings.foldl (markOne s₂.students today time)
            (s₂.attendance_records, [])).1 ∧
      (mark_attendance s₂ encodings today time false).2.disk_attendance
        = s₂.disk_attendance ∧
      (mark_attendance s₂ encodings today time false).2.students
        = s₂.students ∧
      (mark_attendance s₂ encodings today time false).2.disk_students
        = s₂.disk_students) := by
  refine ⟨?_, ?_, ?_, ?_, ?_, ?_⟩
  · simp [registration_submit, register_student, save_students_eff, h1, h2]
  · simp [registration_submit, register_student, save_students_eff, h1, h2]
  · simp [registration_submit, register_student, save_students_eff, h1, h2]
  · simp [registration_submit, register_student, save_students_eff, h1, h2]
  · simp [registration_submit, register_student, save_students_eff, h1, h2]
  · intro s₂ encodings today time hstu hmarked
    refine ⟨?_, ?_, ?_, ?_, ?_⟩ <;>
      simp [mark_attendance, hstu, hmarked, save_attendance_eff]

/-- Witness for C6 (amended): a concrete failing registration of Alice
(students file), and a concrete capture newly marking Alice whose
attendance flush fails. -/
theorem write_failure_no_rollback_amended_witness :
    ¬ (("A" : String) = "" ∨ ("Alice" : String) = ""
        ∨ ("Class 9A" : String) = "Select Class") ∧
    (emptyState.students.any (fun p => decide (p.1 = "A"))) = false ∧
    (registration_submit emptyState "A" "Alice" "Class 9A" "" true (some [0])
        "d0" false).1 = RegOutcome.RegistrationFailed ∧
    (registration_submit emptyState "A" "Alice" "Class 9A" "" true (some [0])
        "d0" false).2.students
      = dictInsert emptyState.students ("A" : String).trim
          { name := ("Alice" : String).trim, className := "Class 9A",
            email := ("" : String).trim, encoding := [0],
            registration_date := "d0" } ∧
    storeWithAlice.students.isEmpty = false ∧
    (([[0]] : List (List ℚ)).foldl
        (markOne storeWithAlice.students "2025-10-08" "09:00")
        (storeWithAlice.attendance_records, [])).2.isEmpty = false ∧
    (mark_attendance storeWithAlice [[0]] "2025-10-08" "09:00" false).1 = [] ∧
    (mark_attendance storeWithAlice [[0]] "2025-10-08" "09:00"
        false).2.attendance_records
      = (([[0]] : List (List ℚ)).foldl
          (markOne storeWithAlice.students "2025-10-08" "09:00")
          (storeWithAlice.attendance_records, [])).1 ∧
    (mark_attendance storeWithAlice [[0]] "2025-10-08" "09:00"
        false).2.disk_attendance = storeWithAlice.disk_attendance :=
  have h := write_failure_no_rollback_amended emptyState "A" "Alice" "Class 9A"
    "" "d0" [0] (by decide) (by decide)
  have hatt := h.2.2.2.2.2 storeWithAlice [[0]] "2025-10-08" "09:00"
    (by with_unfolding_all rfl) (by with_unfolding_all rfl)
  ⟨by decide, by decide, h.1, h.2.1, by with_unfolding_all rfl,
   by with_unfolding_all rfl, hatt.1, hatt.2.1, hatt.2.2.1⟩

/-- C3 (code bug): with Alice stored under key A, submitting the
registration form with the raw entry " A" (the same key up to surrounding
whitespace) bypasses the duplicate check — which tests the RAW string —
and register_student then stores under the STRIPPED key "A", silently
overwriting the prior record and reporting success instead of the
DuplicateKey outcome. -/
theorem duplicate_key_whitespace_overwrite :
    (registration_submit storeWithAlice " A" "Bob" "Class 9A" "" true (some [7])
        "d1" true).1 = RegOutcome.Registered ∧
    (registration_submit storeWithAlice " A" "Bob" "Class 9A" "" true (some [7])
        "d1" true).1 ≠ RegOutcome.DuplicateKey ∧
    (registration_submit storeWithAlice " A" "Bob" "Class 9A" "" true (some [7])
        "d1" true).2.students = [("A", bobRec)] ∧
    storeWithAlice.students = [("A", aliceRec)] ∧
    aliceRec ≠ bobRec :=
  ⟨by with_unfolding_all rfl, by with_unfolding_all decide,
   by with_unfolding_all rfl, rfl, by with_unfolding_all decide⟩

end AttendanceApp
